import Mathlib

/-
Verification of the quota-governance and tenant-isolation layer of the
rag-api repository, as a shallow embedding in Lean 4.

Embedded source files:
  src/s3_vectors_client.py      (tenant partition naming, ownership filter)
  src/user_quota_manager.py     (plan catalog, quota checks, usage updates)
  src/multi_tenant_handlers.py  (request handlers / governance facade)
  src/retry_handler.py          (retry with exponential backoff)

Python strings are modelled as Lean String (a list of characters), machine
integers as Int/Nat (Python ints are unbounded), floats as exact rationals,
DynamoDB rows as explicit record values, and network effects as values in
an environment record plus an explicit effect trace.
-/

/- ===================================================================
   TenantPartitioner: src/s3_vectors_client.py
   =================================================================== -/

/-- Characters removed by Python's str.strip() with no arguments, restricted
to the ASCII whitespace set (tenant ids in this codebase are ASCII identity
claims; full Unicode whitespace adds nothing for the claims below). -/
def isPyWhitespace (c : Char) : Bool :=
  c == ' ' || c == '\t' || c == '\n' || c == '\r' || c == '\x0b' || c == '\x0c'

/-- The character class kept by get_user_index_name's sanitization step:
re.sub removes every character outside [a-zA-Z0-9_-]
(s3_vectors_client.py line 95). Char.isAlpha / Char.isDigit are the
ASCII ranges A-Z, a-z, 0-9, matching the regex exactly. -/
def isAllowedIdChar (c : Char) : Bool :=
  c.isAlpha || c.isDigit || c == '_' || c == '-'

/-- List-level model of Python str.strip(): drop leading and trailing
whitespace characters. -/
def stripChars (l : List Char) : List Char :=
  ((l.dropWhile isPyWhitespace).reverse.dropWhile isPyWhitespace).reverse

/-- Python user_id.strip(). -/
def pyStrip (s : String) : String :=
  ⟨stripChars s.data⟩

/-- Python re.sub(r'[^a-zA-Z0-9_-]', '', s): keep only the allowed
characters. -/
def sanitizeUserId (s : String) : String :=
  ⟨s.data.filter isAllowedIdChar⟩

/-- S3VectorsClient.get_user_index_name (s3_vectors_client.py lines 89-99):
reject empty / whitespace-only ids, sanitize, reject if nothing is left,
otherwise compose the per-tenant index name. ValueError is modelled as
Except.error carrying the exception message. -/
def getUserIndexName (userId : String) : Except String String :=
  if userId == "" || pyStrip userId == "" then
    .error "User ID cannot be empty"
  else
    let sanitized := sanitizeUserId (pyStrip userId)
    if sanitized == "" then
      .error "Invalid user ID format"
    else
      .ok ("user-" ++ sanitized ++ "-knowledge-base")

/-- The metadata dict attached to a stored vector. Only the user_id key
participates in ownership filtering; user_id is Option because
dict.get("user_id") of a metadata dict lacking the key yields None. -/
structure VectorMetadata where
  user_id : Option String
  text : String
  title : String
deriving DecidableEq, Repr

/-- One result record returned by the shared vector store. metadata is
Option because result.get("metadata", {}) defaults a missing key to the
empty dict (whose "user_id" lookup then yields None). -/
structure VectorRecord where
  metadata : Option VectorMetadata
deriving DecidableEq, Repr

/-- result.get("metadata", {}).get("user_id")
(s3_vectors_client.py line 195). -/
def recordOwner (r : VectorRecord) : Option String :=
  match r.metadata with
  | none => none
  | some m => m.user_id

/-- The defensive ownership filter inside query_user_documents
(s3_vectors_client.py lines 192-196): keep exactly the records whose
embedded user_id equals the caller's id. -/
def filterOwnedResults (results : List VectorRecord) (userId : String) : List VectorRecord :=
  results.filter (fun r => recordOwner r == some userId)

/- ===================================================================
   Helper lemmas about strip / sanitize
   =================================================================== -/

theorem dropWhile_forall_iff (p : Char → Bool) :
    ∀ l : List Char, (∀ c ∈ l.dropWhile p, p c) ↔ (∀ c ∈ l, p c) := by
  intro l
  induction l with
  | nil => simp [List.dropWhile]
  | cons a l ih =>
    by_cases h : p a
    · simpa [List.dropWhile, h] using ih
    · simp [List.dropWhile, h]

theorem stripChars_eq_nil_iff (l : List Char) :
    stripChars l = [] ↔ ∀ c ∈ l, isPyWhitespace c := by
  unfold stripChars
  rw [List.reverse_eq_nil_iff, List.dropWhile_eq_nil_iff]
  constructor
  · intro h c hc
    have h' : ∀ c ∈ (l.dropWhile isPyWhitespace), isPyWhitespace c := by
      intro c hc
      exact h c (by simpa using hc)
    exact (dropWhile_forall_iff isPyWhitespace l).mp h' c hc
  · intro h c hc
    have hc' : c ∈ l.dropWhile isPyWhitespace := by simpa using hc
    exact h c ((List.dropWhile_suffix isPyWhitespace).subset hc')

/-- Whitespace characters are never in the sanitizer's allowed class. -/
theorem whitespace_not_allowed (a : Char) (h : isPyWhitespace a) :
    isAllowedIdChar a = false := by
  unfold isPyWhitespace at h
  simp only [Bool.or_eq_true, beq_iff_eq] at h
  rcases h with ((((h | h) | h) | h) | h) | h <;> subst h <;> decide

theorem filter_dropWhile_of_disjoint (l : List Char) :
    (l.dropWhile isPyWhitespace).filter isAllowedIdChar = l.filter isAllowedIdChar := by
  induction l with
  | nil => rfl
  | cons a l ih =>
    by_cases h : isPyWhitespace a
    · simpa [List.dropWhile, h, List.filter, whitespace_not_allowed a h] using ih
    · simp [List.dropWhile, h]

/-- Stripping leading/trailing whitespace does not change the sanitized
form, because whitespace characters are never in the allowed class. -/
theorem sanitize_stripChars (l : List Char) :
    (stripChars l).filter isAllowedIdChar = l.filter isAllowedIdChar := by
  unfold stripChars
  rw [List.filter_reverse, filter_dropWhile_of_disjoint, List.filter_reverse,
    List.reverse_reverse, filter_dropWhile_of_disjoint]

theorem pyStrip_eq_empty_iff (s : String) :
    pyStrip s = "" ↔ ∀ c ∈ s.data, isPyWhitespace c := by
  constructor
  · intro h
    exact (stripChars_eq_nil_iff s.data).mp (congrArg String.data h)
  · intro h
    exact congrArg String.mk ((stripChars_eq_nil_iff s.data).mpr h)

theorem sanitizeUserId_pyStrip (s : String) :
    sanitizeUserId (pyStrip s) = sanitizeUserId s :=
  congrArg String.mk (sanitize_stripChars s.data)

theorem sanitizeUserId_eq_empty_iff (s : String) :
    sanitizeUserId s = "" ↔ ∀ c ∈ s.data, ¬ isAllowedIdChar c := by
  constructor
  · intro h
    exact List.filter_eq_nil_iff.mp (congrArg String.data h)
  · intro h
    exact congrArg String.mk (List.filter_eq_nil_iff.mpr h)

/-- The two rejection branches of get_user_index_name, restated through the
boolean guard each branch tests. -/
theorem getUserIndexName_guard (uid : String) :
    (uid == "" || pyStrip uid == "") = true ↔ ∀ c ∈ uid.data, isPyWhitespace c := by
  simp only [Bool.or_eq_true, beq_iff_eq]
  constructor
  · rintro (h | h)
    · intro c hc
      rw [h] at hc
      simp at hc
    · exact (pyStrip_eq_empty_iff uid).mp h
  · intro h
    exact Or.inr ((pyStrip_eq_empty_iff uid).mpr h)

/-- Inversion for the success branch: whenever get_user_index_name returns a
name, that name is the fixed composition around the sanitized id. -/
theorem getUserIndexName_ok_inv (uid out : String)
    (h : getUserIndexName uid = .ok out) :
    out = "user-" ++ sanitizeUserId uid ++ "-knowledge-base" := by
  unfold getUserIndexName at h
  by_cases h1 : (uid == "" || pyStrip uid == "") = true
  · rw [if_pos h1] at h
    exact absurd h (by simp)
  · rw [if_neg h1] at h
    dsimp only at h
    by_cases h2 : (sanitizeUserId (pyStrip uid) == "") = true
    · rw [if_pos h2] at h
      exact absurd h (by simp)
    · rw [if_neg h2] at h
      injection h with h3
      rw [← h3, sanitizeUserId_pyStrip]

/-- Fixed-prefix, fixed-suffix composition is injective in the middle
component. -/
theorem indexComposition_injective (s t : String)
    (h : "user-" ++ s ++ "-knowledge-base" = "user-" ++ t ++ "-knowledge-base") :
    s = t := by
  have hd : "user-".data ++ (s.data ++ "-knowledge-base".data)
      = "user-".data ++ (t.data ++ "-knowledge-base".data) := congrArg String.data h
  have h2 := List.append_cancel_right (List.append_cancel_left hd)
  obtain ⟨ls⟩ := s
  obtain ⟨lt⟩ := t
  exact congrArg String.mk h2

/-- Claim C3 (amended composition): get_user_index_name rejects an id all of
whose characters are whitespace (in particular the empty id) with the
"User ID cannot be empty" error, rejects an id with a non-whitespace
character but no character in [A-Za-z0-9_-] with the "Invalid user ID
format" error, and for any id containing at least one allowed character
returns exactly "user-" ++ sanitized ++ "-knowledge-base" where sanitized
keeps exactly the characters in [A-Za-z0-9_-]. -/
theorem get_user_index_name_algorithm (uid : String) :
    (getUserIndexName uid = .error "User ID cannot be empty" ↔
      ∀ c ∈ uid.data, isPyWhitespace c) ∧
    (getUserIndexName uid = .error "Invalid user ID format" ↔
      ((∃ c ∈ uid.data, ¬ isPyWhitespace c) ∧ ∀ c ∈ uid.data, ¬ isAllowedIdChar c)) ∧
    ((∃ c ∈ uid.data, isAllowedIdChar c) →
      getUserIndexName uid = .ok ("user-" ++ sanitizeUserId uid ++ "-knowledge-base")) := by
  by_cases hws : ∀ c ∈ uid.data, isPyWhitespace c
  · have hg : (uid == "" || pyStrip uid == "") = true :=
      (getUserIndexName_guard uid).mpr hws
    have he : getUserIndexName uid = .error "User ID cannot be empty" := by
      unfold getUserIndexName
      rw [if_pos hg]
    refine ⟨⟨fun _ => hws, fun _ => he⟩, ?_, ?_⟩
    · rw [he]
      constructor
      · intro h
        exact absurd h (by simp)
      · rintro ⟨⟨c, hc, hnw⟩, _⟩
        exact absurd (hws c hc) hnw
    · rintro ⟨c, hc, ha⟩
      rw [whitespace_not_allowed c (hws c hc)] at ha
      exact absurd ha (by simp)
  · have hg : ¬ (uid == "" || pyStrip uid == "") = true :=
      fun h => hws ((getUserIndexName_guard uid).mp h)
    push_neg at hws
    by_cases hsan : ∀ c ∈ uid.data, ¬ isAllowedIdChar c
    · have hs : (sanitizeUserId (pyStrip uid) == "") = true := by
        rw [beq_iff_eq, sanitizeUserId_pyStrip]
        exact (sanitizeUserId_eq_empty_iff uid).mpr hsan
      have he : getUserIndexName uid = .error "Invalid user ID format" := by
        unfold getUserIndexName
        rw [if_neg hg]
        dsimp only
        rw [if_pos hs]
      refine ⟨?_, ⟨fun _ => ⟨hws, hsan⟩, fun _ => he⟩, ?_⟩
      · rw [he]
        constructor
        · intro h
          exact absurd h (by simp)
        · intro hforall
          obtain ⟨c, hc, hnw⟩ := hws
          exact absurd (hforall c hc) hnw
      · rintro ⟨c, hc, ha⟩
        exact absurd ha (hsan c hc)
    · have hse : ¬ (sanitizeUserId (pyStrip uid) == "") = true := by
        rw [beq_iff_eq, sanitizeUserId_pyStrip]
        intro h
        exact hsan ((sanitizeUserId_eq_empty_iff uid).mp h)
      have hok : getUserIndexName uid =
          .ok ("user-" ++ sanitizeUserId uid ++ "-knowledge-base") := by
        unfold getUserIndexName
        rw [if_neg hg]
        dsimp only
        rw [if_neg hse, sanitizeUserId_pyStrip]
      refine ⟨?_, ?_, fun _ => hok⟩
      · rw [hok]
        constructor
        · intro h
          exact absurd h (by simp)
        · intro hforall
          obtain ⟨c, hc, hnw⟩ := hws
          exact absurd (hforall c hc) hnw
      · rw [hok]
        constructor
        · intro h
          exact absurd h (by simp)
        · rintro ⟨_, hall⟩
          exact absurd hall hsan

/-- Witness for get_user_index_name_algorithm at concrete inputs: a
whitespace-only id, an all-illegal id, and a mixed id. -/
theorem get_user_index_name_algorithm_witness :
    getUserIndexName "   " = .error "User ID cannot be empty" ∧
    getUserIndexName "@#$" = .error "Invalid user ID format" ∧
    getUserIndexName " User_1! " = .ok ("user-" ++ sanitizeUserId " User_1! " ++ "-knowledge-base") :=
  ⟨(get_user_index_name_algorithm "   ").1.mpr (by decide),
   (get_user_index_name_algorithm "@#$").2.1.mpr (by decide),
   (get_user_index_name_algorithm " User_1! ").2.2 (by decide)⟩

/-- Counterexample to claim C3 as stated: the composition returned by the
code is "user-" ++ sanitized ++ "-knowledge-base", not
"tenant-" ++ sanitized ++ "-store". -/
theorem get_user_index_name_composition_cex :
    getUserIndexName "user123" = .ok "user-user123-knowledge-base" ∧
    getUserIndexName "user123" ≠ .ok "tenant-user123-store" := by
  refine ⟨rfl, fun h => ?_⟩
  have h0 : getUserIndexName "user123" = .ok "user-user123-knowledge-base" := rfl
  rw [h0] at h
  injection h with h1
  exact absurd h1 (by decide)

/-- Claim C1 (amended): on accepted ids, Resolve collides exactly when the
sanitized forms coincide; it is injective only up to sanitization, and two
ids differing in stripped characters map to the SAME partition. -/
theorem get_user_index_name_collision_iff (a b x y : String)
    (ha : getUserIndexName a = .ok x) (hb : getUserIndexName b = .ok y) :
    x = y ↔ sanitizeUserId a = sanitizeUserId b := by
  rw [getUserIndexName_ok_inv a x ha, getUserIndexName_ok_inv b y hb]
  constructor
  · exact indexComposition_injective _ _
  · intro h
    rw [h]

/-- Witness for get_user_index_name_collision_iff: two concretely accepted
ids whose sanitized forms are forced equal by the collision of their
partitions. -/
theorem get_user_index_name_collision_iff_witness :
    sanitizeUserId "user+1" = sanitizeUserId "user.1" :=
  (get_user_index_name_collision_iff "user+1" "user.1"
    "user-user1-knowledge-base" "user-user1-knowledge-base" rfl rfl).mp rfl

/-- Counterexample to claim C1 as stated: two distinct raw ids differing
only in characters outside [A-Za-z0-9_-] are both accepted and map to the
same partition identifier. -/
theorem get_user_index_name_lossy_collision :
    getUserIndexName "user@#$123" = getUserIndexName "user123" ∧
    ("user@#$123" : String) ≠ "user123" :=
  ⟨rfl, by decide⟩

/-- Claim C2: the ownership filter of query_user_documents keeps exactly the
records whose embedded user_id metadata equals the caller's tenant id, and
its output is invariant under inserting or removing records owned by other
tenants (noninterference of foreign records). -/
theorem query_user_documents_owner_filter :
    (∀ (results : List VectorRecord) (uid : String) (r : VectorRecord),
        r ∈ filterOwnedResults results uid ↔ r ∈ results ∧ recordOwner r = some uid) ∧
    (∀ (pre others post : List VectorRecord) (uid : String),
        (∀ r ∈ others, recordOwner r ≠ some uid) →
        filterOwnedResults (pre ++ others ++ post) uid =
          filterOwnedResults (pre ++ post) uid) := by
  constructor
  · intro results uid r
    simp [filterOwnedResults, List.mem_filter]
  · intro pre others post uid h
    unfold filterOwnedResults
    rw [List.filter_append, List.filter_append, List.filter_append]
    have hnil : others.filter (fun r => recordOwner r == some uid) = [] :=
      List.filter_eq_nil_iff.mpr (by
        intro a ha
        simpa using h a ha)
    rw [hnil]
    simp

/-- Sample records used by concrete witnesses below. -/
def aliceDoc : VectorRecord := ⟨some ⟨some "alice", "a-text", "a-title"⟩⟩

def bobDoc : VectorRecord := ⟨some ⟨some "bob", "b-text", "b-title"⟩⟩

def orphanDoc : VectorRecord := ⟨none⟩

/-- Witness for query_user_documents_owner_filter on a concrete result
list: membership characterization and removal of the foreign records. -/
theorem query_user_documents_owner_filter_witness :
    (aliceDoc ∈ filterOwnedResults [aliceDoc, bobDoc, orphanDoc] "alice" ↔
      aliceDoc ∈ [aliceDoc, bobDoc, orphanDoc] ∧ recordOwner aliceDoc = some "alice") ∧
    filterOwnedResults ([aliceDoc] ++ [bobDoc, orphanDoc] ++ [aliceDoc]) "alice" =
      filterOwnedResults ([aliceDoc] ++ [aliceDoc]) "alice" :=
  ⟨query_user_documents_owner_filter.1 [aliceDoc, bobDoc, orphanDoc] "alice" aliceDoc,
   query_user_documents_owner_filter.2 [aliceDoc] [bobDoc, orphanDoc] [aliceDoc] "alice"
     (by decide)⟩

/- ===================================================================
   Quota manager: src/user_quota_manager.py
   =================================================================== -/

/-- The per-plan limit table UserQuotaManager.PLAN_DEFAULTS
(user_quota_manager.py lines 66-103): one limit per quota dimension.
Field order follows the dict literal. -/
structure PlanLimits where
  max_documents : Nat
  max_vectors : Nat
  max_storage_size_mb : Nat
  max_monthly_queries : Nat
  max_daily_uploads : Nat
  max_images : Nat
  max_image_storage_mb : Nat
  max_image_vectors : Nat
  max_monthly_image_analyses : Nat
deriving DecidableEq, Repr

def freePlanLimits : PlanLimits := ⟨50, 5000, 50, 500, 5, 20, 100, 1000, 50⟩

def basicPlanLimits : PlanLimits := ⟨200, 20000, 200, 2000, 20, 100, 500, 5000, 200⟩

def premiumPlanLimits : PlanLimits := ⟨1000, 100000, 1000, 10000, 100, 500, 2000, 20000, 1000⟩

/-- The three built-in plan tiers (keys of PLAN_DEFAULTS). -/
inductive PlanTier
  | free
  | basic
  | premium
deriving DecidableEq, Repr, Fintype

/-- PLAN_DEFAULTS as a total map over the three tiers. -/
def planDefaults : PlanTier → PlanLimits
  | .free => freePlanLimits
  | .basic => basicPlanLimits
  | .premium => premiumPlanLimits

/-- The tier order free < basic < premium stated through a rank. -/
def tierRank : PlanTier → Nat
  | .free => 0
  | .basic => 1
  | .premium => 2

/-- The closed enumeration of quota dimensions carried by PLAN_DEFAULTS. -/
inductive QuotaDimension
  | documents
  | vectors
  | storage
  | monthlyQueries
  | dailyUploads
  | images
  | imageStorage
  | imageVectors
  | monthlyImageAnalyses
deriving DecidableEq, Repr, Fintype

/-- Projection of a plan's limit for one dimension. -/
def limitOf (p : PlanLimits) : QuotaDimension → Nat
  | .documents => p.max_documents
  | .vectors => p.max_vectors
  | .storage => p.max_storage_size_mb
  | .monthlyQueries => p.max_monthly_queries
  | .dailyUploads => p.max_daily_uploads
  | .images => p.max_images
  | .imageStorage => p.max_image_storage_mb
  | .imageVectors => p.max_image_vectors
  | .monthlyImageAnalyses => p.max_monthly_image_analyses

/-- The UserQuota dataclass fields consulted by the text-side quota checks
(user_quota_manager.py lines 21-32). Python ints are modelled as Int. -/
structure UserQuota where
  user_id : String
  plan_type : String
  max_documents : Int
  max_vectors : Int
  max_storage_size_mb : Int
  max_monthly_queries : Int
  max_daily_uploads : Int
deriving DecidableEq, Repr

/-- The QuotaUsage dataclass (user_quota_manager.py lines 40-59): current
usage counters plus the periodic window keys. current_storage_size_mb is a
Python float, modelled as an exact rational. -/
structure QuotaUsage where
  user_id : String
  current_documents : Int
  current_vectors : Int
  current_storage_size_mb : ℚ
  monthly_queries : Int
  daily_uploads : Int
  month_year : String
  upload_date : String
  last_query_date : Option String
  last_upload_date : Option String
deriving DecidableEq, Repr

/-- Python round-half-even of q*100 followed by "intpart.fracpart"
rendering: model of the f"{x:.2f}" format used by the storage-limit
message. (The Python format applies to an IEEE double; this exact-rational
model agrees with it away from representation-error ties. No theorem below
exercises this branch.) -/
def formatTwoDecimals (q : ℚ) : String :=
  let s := q * 100
  let f : Int := ⌊s⌋
  let n : Int :=
    if s - f < 1/2 then f
    else if s - f > 1/2 then f + 1
    else if f % 2 = 0 then f else f + 1
  let sign := if n < 0 then "-" else ""
  let a := n.natAbs
  sign ++ toString (a / 100) ++ "." ++ (if a % 100 < 10 then "0" else "") ++ toString (a % 100)

/-- UserQuotaManager.check_quota_before_upload (user_quota_manager.py lines
176-202), with the two DynamoDB reads factored out into the quota/usage
arguments and the UTC clock into today. documentTextBytes is
len(document_text.encode("utf-8")). -/
def checkQuotaBeforeUpload (quota : UserQuota) (usage : QuotaUsage)
    (documentTextBytes : Nat) (estimatedVectors : Int) (today : String) :
    Bool × String :=
  let usage :=
    if usage.upload_date ≠ today then
      { usage with daily_uploads := 0, upload_date := today }
    else usage
  if usage.current_documents ≥ quota.max_documents then
    (false, "Document limit exceeded (" ++ toString usage.current_documents ++ "/"
      ++ toString quota.max_documents ++ ")")
  else if usage.current_vectors + estimatedVectors > quota.max_vectors then
    (false, "Vector limit would be exceeded ("
      ++ toString (usage.current_vectors + estimatedVectors) ++ "/"
      ++ toString quota.max_vectors ++ ")")
  else
    let documentSizeMb : ℚ := (documentTextBytes : ℚ) / (1024 * 1024)
    if usage.current_storage_size_mb + documentSizeMb > (quota.max_storage_size_mb : ℚ) then
      (false, "Storage limit would be exceeded ("
        ++ formatTwoDecimals (usage.current_storage_size_mb + documentSizeMb) ++ "/"
        ++ toString quota.max_storage_size_mb ++ " MB)")
    else if usage.daily_uploads ≥ quota.max_daily_uploads then
      (false, "Daily upload limit exceeded (" ++ toString usage.daily_uploads ++ "/"
        ++ toString quota.max_daily_uploads ++ ")")
    else
      (true, "OK")

/-- UserQuotaManager.check_quota_before_query (user_quota_manager.py lines
204-219). -/
def checkQuotaBeforeQuery (quota : UserQuota) (usage : QuotaUsage)
    (currentMonth : String) : Bool × String :=
  let usage :=
    if usage.month_year ≠ currentMonth then
      { usage with monthly_queries := 0, month_year := currentMonth }
    else usage
  if usage.monthly_queries ≥ quota.max_monthly_queries then
    (false, "Monthly query limit exceeded (" ++ toString usage.monthly_queries ++ "/"
      ++ toString quota.max_monthly_queries ++ ")")
  else
    (true, "OK")

/-- UserQuotaManager.update_usage_after_upload (user_quota_manager.py lines
221-249): semantics of the DynamoDB UpdateExpression, which ADDs the four
deltas to the stored counters and SETs upload_date / last_upload_date.
Note: it never resets a stale daily counter. -/
def updateUsageAfterUpload (usage : QuotaUsage) (vectorCount : Int)
    (documentSizeMb : ℚ) (today nowIso : String) : QuotaUsage :=
  { usage with
    current_documents := usage.current_documents + 1
    current_vectors := usage.current_vectors + vectorCount
    current_storage_size_mb := usage.current_storage_size_mb + documentSizeMb
    daily_uploads := usage.daily_uploads + 1
    upload_date := today
    last_upload_date := some nowIso }

/-- UserQuotaManager.update_usage_after_query (user_quota_manager.py lines
251-273): ADD monthly_queries 1, SET month_year / last_query_date.
Note: it never resets a stale monthly counter. -/
def updateUsageAfterQuery (usage : QuotaUsage) (currentMonth nowIso : String) :
    QuotaUsage :=
  { usage with
    monthly_queries := usage.monthly_queries + 1
    month_year := currentMonth
    last_query_date := some nowIso }

/-- The safe_percentage helper of get_quota_status / get_extended_quota_status
(user_quota_manager.py lines 281-282 and 486-487). -/
def safePercentage (current maximum : ℚ) : ℚ :=
  if maximum > 0 then current / maximum * 100 else 0

/-- One {current, max, percentage} snapshot entry of the quota status
response. -/
structure QuotaStatusEntry where
  current : ℚ
  max : ℚ
  percentage : ℚ
deriving DecidableEq, Repr

/-- The five per-dimension entries built by get_quota_status
(user_quota_manager.py lines 284-317), in response order: documents,
vectors, storage, monthly_queries, daily_uploads. -/
def getQuotaStatusEntries (quota : UserQuota) (usage : QuotaUsage) :
    List QuotaStatusEntry :=
  [⟨usage.current_documents, quota.max_documents,
      safePercentage usage.current_documents quota.max_documents⟩,
   ⟨usage.current_vectors, quota.max_vectors,
      safePercentage usage.current_vectors quota.max_vectors⟩,
   ⟨usage.current_storage_size_mb, quota.max_storage_size_mb,
      safePercentage usage.current_storage_size_mb quota.max_storage_size_mb⟩,
   ⟨usage.monthly_queries, quota.max_monthly_queries,
      safePercentage usage.monthly_queries quota.max_monthly_queries⟩,
   ⟨usage.daily_uploads, quota.max_daily_uploads,
      safePercentage usage.daily_uploads quota.max_daily_uploads⟩]

/-- get_extended_quota_status (user_quota_manager.py lines 479-527): the
base snapshot plus the four image entries. The QuotaUsage dataclass has no
image attributes, so every getattr(usage, ..., 0) default yields 0 for the
current values; the limits come from PLAN_DEFAULTS[quota.plan_type],
passed here as limits. -/
def getExtendedQuotaStatusEntries (quota : UserQuota) (usage : QuotaUsage)
    (limits : PlanLimits) : List QuotaStatusEntry :=
  getQuotaStatusEntries quota usage ++
  [⟨0, limits.max_images, safePercentage 0 limits.max_images⟩,
   ⟨0, limits.max_image_storage_mb, safePercentage 0 limits.max_image_storage_mb⟩,
   ⟨0, limits.max_image_vectors, safePercentage 0 limits.max_image_vectors⟩,
   ⟨0, limits.max_monthly_image_analyses, safePercentage 0 limits.max_monthly_image_analyses⟩]

/-- estimate_vector_count (user_quota_manager.py lines 531-543) as a
function of the text length. estimated_chunks * 6 / 5 (floored) is the
exact value of Python's int(estimated_chunks * 1.2): for multiples of 5
the IEEE product rounds to the exact integer 6c/5, and otherwise the
fractional part of 6c/5 is at least 1/5, far above the rounding error, for
every chunk count below 2^51. -/
def estimateVectorCount (textLength : Nat) (chunkSize : Nat) : Nat :=
  if textLength = 0 then 0
  else
    let estimatedChunks := textLength / chunkSize +
      (if textLength % chunkSize > 0 then 1 else 0)
    estimatedChunks * 6 / 5

/-- Claim C8: across the tier order free < basic < premium, every quota
dimension's limit in PLAN_DEFAULTS is strictly increasing. -/
theorem plan_limits_strict_monotonicity :
    ∀ (p1 p2 : PlanTier) (d : QuotaDimension),
      tierRank p1 < tierRank p2 →
      limitOf (planDefaults p1) d < limitOf (planDefaults p2) d := by decide

/-- Witness for plan_limits_strict_monotonicity at a concrete tier pair and
dimension. -/
theorem plan_limits_strict_monotonicity_witness :
    tierRank PlanTier.free < tierRank PlanTier.basic ∧
    limitOf (planDefaults PlanTier.free) QuotaDimension.documents <
      limitOf (planDefaults PlanTier.basic) QuotaDimension.documents :=
  ⟨by decide,
   plan_limits_strict_monotonicity PlanTier.free PlanTier.basic
     QuotaDimension.documents (by decide)⟩

theorem safePercentage_cases (c m : ℚ) :
    (m > 0 → safePercentage c m = c / m * 100) ∧ (m = 0 → safePercentage c m = 0) := by
  constructor
  · intro h
    rw [safePercentage, if_pos h]
  · intro h
    subst h
    norm_num [safePercentage]

/-- Claim C9: every entry of the status snapshot (base and extended) reports
percentage = current / max * 100 when max > 0 and percentage = 0 when
max = 0, so the percentage computation is total. -/
theorem quota_status_safe_percentage :
    (∀ (quota : UserQuota) (usage : QuotaUsage) (e : QuotaStatusEntry),
        e ∈ getQuotaStatusEntries quota usage →
        (e.max > 0 → e.percentage = e.current / e.max * 100) ∧
        (e.max = 0 → e.percentage = 0)) ∧
    (∀ (quota : UserQuota) (usage : QuotaUsage) (limits : PlanLimits)
        (e : QuotaStatusEntry),
        e ∈ getExtendedQuotaStatusEntries quota usage limits →
        (e.max > 0 → e.percentage = e.current / e.max * 100) ∧
        (e.max = 0 → e.percentage = 0)) := by
  constructor
  · intro quota usage e he
    simp only [getQuotaStatusEntries, List.mem_cons, List.not_mem_nil, or_false] at he
    rcases he with h | h | h | h | h <;> subst h <;> exact safePercentage_cases _ _
  · intro quota usage limits e he
    simp only [getExtendedQuotaStatusEntries, getQuotaStatusEntries, List.mem_append,
      List.mem_cons, List.not_mem_nil, or_false] at he
    rcases he with (h | h | h | h | h) | (h | h | h | h) <;> subst h <;>
      exact safePercentage_cases _ _

/-- Sample quota with a zero document ceiling and sample usage, used by the
safe-percentage witness. -/
def zeroDocQuota : UserQuota := ⟨"alice", "free", 0, 5000, 50, 500, 5⟩

def zeroDocUsage : QuotaUsage := ⟨"alice", 3, 100, 5, 7, 1, "2024-01", "2024-01-15", none, none⟩

/-- Witness for quota_status_safe_percentage: the documents entry of a
snapshot whose max is 0 reports percentage 0 rather than dividing. -/
theorem quota_status_safe_percentage_witness :
    (⟨(3 : ℚ), 0, safePercentage 3 0⟩ : QuotaStatusEntry) ∈
      getQuotaStatusEntries zeroDocQuota zeroDocUsage ∧
    (⟨(3 : ℚ), 0, safePercentage 3 0⟩ : QuotaStatusEntry).percentage = 0 :=
  ⟨by decide,
   (quota_status_safe_percentage.1 zeroDocQuota zeroDocUsage
     ⟨(3 : ℚ), 0, safePercentage 3 0⟩ (by decide)).2 (by decide)⟩

/-- Claim C10: estimate_vector_count is 0 on empty text, and on text of
length n > 0 with the default chunk size 1000 it equals
int(1.2 * ceil(n / 1000)) — written here in exact integer arithmetic as
6 * ceil(n / 1000) / 5 with ceil(n / 1000) = (n + 999) / 1000 — which is
at least 1: a non-empty document is never charged zero vectors. -/
theorem estimate_vector_count_spec :
    estimateVectorCount 0 1000 = 0 ∧
    ∀ n : Nat, 0 < n →
      estimateVectorCount n 1000 = 6 * ((n + 999) / 1000) / 5 ∧
      1 ≤ estimateVectorCount n 1000 := by
  refine ⟨rfl, fun n hn => ?_⟩
  have hne : ¬ n = 0 := by omega
  unfold estimateVectorCount
  rw [if_neg hne]
  dsimp only
  constructor
  · have hc : n / 1000 + (if n % 1000 > 0 then 1 else 0) = (n + 999) / 1000 := by
      by_cases h : n % 1000 > 0
      · rw [if_pos h]
        omega
      · rw [if_neg h]
        omega
    rw [hc, Nat.mul_comm]
  · have hc1 : 1 ≤ n / 1000 + (if n % 1000 > 0 then 1 else 0) := by
      by_cases h : n % 1000 > 0
      · rw [if_pos h]
        omega
      · rw [if_neg h]
        omega
    omega

/-- Witness for estimate_vector_count_spec at a concrete length: a
2500-character document is charged 3 vectors, never 0. -/
theorem estimate_vector_count_spec_witness :
    0 < 2500 ∧
    estimateVectorCount 2500 1000 = 6 * ((2500 + 999) / 1000) / 5 ∧
    1 ≤ estimateVectorCount 2500 1000 :=
  ⟨by decide, estimate_vector_count_spec.2 2500 (by decide)⟩

/-- A free-plan quota row and a usage row sitting exactly at the document
ceiling, used for claim C5. -/
def freeQuota : UserQuota := ⟨"tenant-a", "free", 50, 5000, 50, 500, 5⟩

def fullDocsUsage : QuotaUsage :=
  ⟨"tenant-a", 50, 100, 1, 0, 0, "2024-01", "2024-01-15", none, none⟩

/-- Counterexample to claim C5 as stated: at current_documents = 50 and
max_documents = 50, check_quota_before_upload reports the CURRENT value,
"Document limit exceeded (50/50)", not the attempted value "(51/50)". -/
theorem check_quota_document_message_cex :
    checkQuotaBeforeUpload freeQuota fullDocsUsage 1000 1 "2024-01-15" =
      (false, "Document limit exceeded (50/50)") ∧
    checkQuotaBeforeUpload freeQuota fullDocsUsage 1000 1 "2024-01-15" ≠
      (false, "Document limit exceeded (51/50)") := by
  constructor
  · decide
  · decide

/-- Claim C5 (amended): a document-limit rejection reports the current value
and the limit — "Document limit exceeded (current/max)" — rather than the
attempted value current + delta. -/
theorem check_quota_document_message (quota : UserQuota) (usage : QuotaUsage)
    (docBytes : Nat) (est : Int) (today : String)
    (h : usage.current_documents ≥ quota.max_documents) :
    checkQuotaBeforeUpload quota usage docBytes est today =
      (false, "Document limit exceeded (" ++ toString usage.current_documents ++ "/"
        ++ toString quota.max_documents ++ ")") := by
  unfold checkQuotaBeforeUpload
  by_cases hd : usage.upload_date ≠ today
  · rw [if_pos hd]
    dsimp only
    rw [if_pos h]
  · rw [if_neg hd]
    dsimp only
    rw [if_pos h]

/-- Witness for check_quota_document_message at the concrete free-plan
tenant sitting at its ceiling. -/
theorem check_quota_document_message_witness :
    fullDocsUsage.current_documents ≥ freeQuota.max_documents ∧
    checkQuotaBeforeUpload freeQuota fullDocsUsage 1000 1 "2024-01-15" =
      (false, "Document limit exceeded (50/50)") := by
  refine ⟨by decide, ?_⟩
  rw [check_quota_document_message freeQuota fullDocsUsage 1000 1 "2024-01-15" (by decide)]
  decide

/-- A usage row whose periodic window keys are stale: 5 uploads recorded
under day 2024-01-01 and 7 queries under month 2023-12. -/
def staleWindowUsage : QuotaUsage :=
  ⟨"tenant-a", 10, 100, 5, 7, 5, "2023-12", "2024-01-01", none, none⟩

/-- Claim C4 evidence (code bug): update_usage_after_upload on a NEW day
ADDs to the stale counter and merely SETs the window key, so one upload on
2024-01-02 over 5 stale uploads stores daily_uploads = 6 (the claim and
spec require 1); update_usage_after_query behaves the same for the monthly
counter (8 instead of 1). The resulting row even makes the code's own
check_quota_before_upload reject the tenant's next upload on 2024-01-02 as
(6/5) although only one upload happened that day. -/
theorem update_usage_stale_window_not_reset :
    (updateUsageAfterUpload staleWindowUsage 3 1 "2024-01-02" "2024-01-02T10:00:00").daily_uploads = 6 ∧
    (updateUsageAfterUpload staleWindowUsage 3 1 "2024-01-02" "2024-01-02T10:00:00").upload_date = "2024-01-02" ∧
    (updateUsageAfterQuery staleWindowUsage "2024-01" "2024-01-02T10:00:00").monthly_queries = 8 ∧
    (updateUsageAfterQuery staleWindowUsage "2024-01" "2024-01-02T10:00:00").month_year = "2024-01" ∧
    checkQuotaBeforeUpload freeQuota
      (updateUsageAfterUpload staleWindowUsage 3 1 "2024-01-02" "2024-01-02T10:00:00")
      1000 1 "2024-01-02" =
      (false, "Daily upload limit exceeded (6/5)") ∧
    (6 : Int) ≠ 1 := by
  refine ⟨rfl, rfl, rfl, rfl, ?_, by decide⟩
  have hupd : updateUsageAfterUpload staleWindowUsage 3 1 "2024-01-02" "2024-01-02T10:00:00" =
      ⟨"tenant-a", 11, 103, 6, 7, 6, "2023-12", "2024-01-02", none,
        some "2024-01-02T10:00:00"⟩ := by
    simp only [updateUsageAfterUpload, staleWindowUsage, QuotaUsage.mk.injEq]
    norm_num
  rw [hupd]
  unfold checkQuotaBeforeUpload
  rw [if_neg (by decide : ¬ (("2024-01-02" : String) ≠ "2024-01-02"))]
  dsimp only
  simp only [freeQuota]
  rw [if_neg (by decide : ¬ ((11 : Int) ≥ 50)),
    if_neg (by decide : ¬ ((103 : Int) + 1 > 5000)),
    if_neg (by norm_num : ¬ ((6 : ℚ) + ((1000 : Nat) : ℚ) / (1024 * 1024) > ((50 : Int) : ℚ))),
    if_pos (by decide : (6 : Int) ≥ 5)]
  decide

/- ===================================================================
   ResilientInvoker: src/retry_handler.py
   =================================================================== -/

/-- Outcome of one call to the wrapped function, classified the way
retry_with_backoff classifies exceptions: success, a botocore ClientError
whose code is ThrottlingException or TooManyRequestsException, a
ClientError with any other code, or a non-ClientError exception. -/
inductive CallOutcome
  | success (value : Nat)
  | throttlingError (msg : String)
  | clientError (msg : String)
  | otherException (msg : String)
deriving DecidableEq, Repr

/-- Observable behaviour of one run of retry_with_backoff: the returned
value or propagated exception, the number of calls made to fn, and the
backoff sleep durations in order. -/
structure RetryOutcome where
  result : Except String Nat
  calls : Nat
  sleeps : List ℚ
deriving Repr

/-- Loop body of retry_with_backoff (retry_handler.py lines 8-25). fn is
the call oracle (outcome of the i-th call), jitter the random.uniform(0,1)
stream. The Python loop runs attempt = 0 .. max_retries; remaining is the
loop-counter complement max_retries - attempt, so remaining = 0 exactly
when attempt == max_retries and the throttled branch re-raises. -/
def retryAux (fn : Nat → CallOutcome) (jitter : Nat → ℚ) (baseDelay : ℚ) :
    Nat → Nat → RetryOutcome
  | attempt, remaining =>
    match fn attempt with
    | .success v => ⟨.ok v, 1, []⟩
    | .throttlingError e =>
      match remaining with
      | 0 => ⟨.error e, 1, []⟩
      | r + 1 =>
        let d := baseDelay * 2 ^ attempt + jitter attempt
        let rest := retryAux fn jitter baseDelay (attempt + 1) r
        ⟨rest.result, rest.calls + 1, d :: rest.sleeps⟩
    | .clientError e => ⟨.error e, 1, []⟩
    | .otherException e => ⟨.error e, 1, []⟩

/-- retry_with_backoff(fn, max_retries, base_delay)
(retry_handler.py lines 6-27). -/
def retryWithBackoff (fn : Nat → CallOutcome) (jitter : Nat → ℚ)
    (maxRetries : Nat) (baseDelay : ℚ) : RetryOutcome :=
  retryAux fn jitter baseDelay 0 maxRetries

theorem retryAux_all_throttle (fn : Nat → CallOutcome) (jitter : Nat → ℚ)
    (baseDelay : ℚ) (es : Nat → String) :
    ∀ remaining attempt,
      (∀ i, i ≤ attempt + remaining → fn i = .throttlingError (es i)) →
      retryAux fn jitter baseDelay attempt remaining =
        ⟨.error (es (attempt + remaining)), remaining + 1,
          (List.range remaining).map
            (fun j => baseDelay * 2 ^ (attempt + j) + jitter (attempt + j))⟩ := by
  intro remaining
  induction remaining with
  | zero =>
    intro attempt h
    rw [retryAux, h attempt (by omega)]
    rfl
  | succ r ih =>
    intro attempt h
    rw [retryAux, h attempt (by omega)]
    dsimp only
    have h' : ∀ i, i ≤ attempt + 1 + r → fn i = .throttlingError (es i) :=
      fun i hi => h i (by omega)
    rw [ih (attempt + 1) h']
    dsimp only
    have he : attempt + 1 + r = attempt + (r + 1) := by omega
    have hmap : (List.range (r + 1)).map
        (fun j => baseDelay * 2 ^ (attempt + j) + jitter (attempt + j)) =
        (baseDelay * 2 ^ (attempt + 0) + jitter (attempt + 0)) ::
          (List.range r).map
            (fun j => baseDelay * 2 ^ (attempt + 1 + j) + jitter (attempt + 1 + j)) := by
      rw [List.range_succ_eq_map, List.map_cons, List.map_map]
      refine congrArg₂ _ rfl (List.map_congr_left ?_)
      intro j _
      simp only [Function.comp]
      rw [show attempt + (j + 1) = attempt + 1 + j by omega]
    rw [he, hmap]
    rfl

/-- Claim C7: retry_with_backoff returns fn's result immediately on success;
propagates a non-throttling error (other ClientError or any other
exception) after exactly 1 call with no sleep; under throttling errors it
sleeps baseDelay * 2^attempt + jitter(attempt) before each retry and
propagates the last error after maxRetries + 1 throttled calls; and a fn
that throttles twice then succeeds, with maxRetries = 3, yields the
success result after exactly 3 calls and 2 sleeps. -/
theorem retry_with_backoff_policy (fn : Nat → CallOutcome) (jitter : Nat → ℚ)
    (maxRetries : Nat) (baseDelay : ℚ) :
    (∀ v, fn 0 = .success v →
      retryWithBackoff fn jitter maxRetries baseDelay = ⟨.ok v, 1, []⟩) ∧
    (∀ e, fn 0 = .clientError e →
      retryWithBackoff fn jitter maxRetries baseDelay = ⟨.error e, 1, []⟩) ∧
    (∀ e, fn 0 = .otherException e →
      retryWithBackoff fn jitter maxRetries baseDelay = ⟨.error e, 1, []⟩) ∧
    (∀ es : Nat → String,
      (∀ i, i ≤ maxRetries → fn i = .throttlingError (es i)) →
      retryWithBackoff fn jitter maxRetries baseDelay =
        ⟨.error (es maxRetries), maxRetries + 1,
          (List.range maxRetries).map (fun i => baseDelay * 2 ^ i + jitter i)⟩) ∧
    (∀ e0 e1 v, fn 0 = .throttlingError e0 → fn 1 = .throttlingError e1 →
      fn 2 = .success v →
      retryWithBackoff fn jitter 3 baseDelay =
        ⟨.ok v, 3, [baseDelay * 2 ^ 0 + jitter 0, baseDelay * 2 ^ 1 + jitter 1]⟩) := by
  refine ⟨?_, ?_, ?_, ?_, ?_⟩
  · intro v h
    unfold retryWithBackoff
    rw [retryAux, h]
  · intro e h
    unfold retryWithBackoff
    rw [retryAux, h]
  · intro e h
    unfold retryWithBackoff
    rw [retryAux, h]
  · intro es h
    have h0 := retryAux_all_throttle fn jitter baseDelay es maxRetries 0
      (fun i hi => h i (by omega))
    simpa only [Nat.zero_add] using h0
  · intro e0 e1 v h0 h1 h2
    unfold retryWithBackoff
    simp [retryAux, h0, h1, h2]

/-- A concrete call oracle that throttles twice and then succeeds, and a
zero jitter stream, for the retry-policy witness. -/
def c7fn : Nat → CallOutcome := fun i =>
  if i = 0 then .throttlingError "T0"
  else if i = 1 then .throttlingError "T1"
  else .success 42

def c7jitter : Nat → ℚ := fun _ => 0

/-- Witness for retry_with_backoff_policy: the concrete
throttle-throttle-success oracle with maxRetries 3 and baseDelay 1. -/
theorem retry_with_backoff_policy_witness :
    retryWithBackoff c7fn c7jitter 3 1 =
      ⟨.ok 42, 3, [1 * 2 ^ 0 + c7jitter 0, 1 * 2 ^ 1 + c7jitter 1]⟩ :=
  (retry_with_backoff_policy c7fn c7jitter 3 1).2.2.2.2 "T0" "T1" 42 rfl rfl rfl

/- ===================================================================
   Governance facade: src/multi_tenant_handlers.py
   =================================================================== -/

/-- The request-body fields consumed by user_query_handler: the question
and preferences.max_results (default 3). -/
structure QueryRequest where
  question : String
  maxResults : Nat
deriving DecidableEq, Repr

/-- The request-body fields consumed by user_add_document_handler. -/
structure UploadRequest where
  text : String
  title : String
deriving DecidableEq, Repr

/-- The externally-visible side effects a handler can trigger, in program
order: the vector-store query (with its embedding call), the LLM
completion, update_usage_after_query, the vector put (add_user_document),
and update_usage_after_upload. -/
inductive HandlerEffect
  | vectorQuery
  | bedrockInvoke
  | usageRecordQuery
  | vectorPut
  | usageRecordUpload
deriving DecidableEq, Repr

/-- Responses a handler can produce: 200 bodies for the two operations,
the 429 quota-exceeded body (error message, quota_status snapshot, and for
uploads the estimated_vectors / document_size_mb extras), and the 400
ValueError body. The 500 path is not reachable in this model because the
environment supplies successful external results. -/
inductive HandlerResponse
  | okQuery (answer : String) (sources : List VectorRecord) (confidence : ℚ)
  | okUpload (vectorCount : Nat) (title : String) (status : List QuotaStatusEntry)
  | quotaExceeded (errorMsg : String) (status : List QuotaStatusEntry)
      (estimatedVectors : Option Nat) (docSizeMb : Option ℚ)
  | badRequest (errorMsg : String)
deriving Repr

/-- Environment of one user_query_handler invocation: outcome of the
Cognito extraction, the tenant's stored quota/usage rows, the current UTC
month, the parsed body, the raw store results and the LLM answer. -/
structure QueryHandlerEnv where
  cognitoUserId : Except String String
  quota : UserQuota
  usage : QuotaUsage
  currentMonth : String
  body : Except String QueryRequest
  storeResults : List VectorRecord
  llmAnswer : String

/-- user_query_handler (multi_tenant_handlers.py lines 111-220): extract
the user id, run check_quota_before_query, short-circuit with 429 and the
status snapshot on failure, otherwise parse the body, validate the
question, resolve the index name, query, complete and record usage. The
effect trace lists the external operations actually performed. -/
def userQueryHandler (env : QueryHandlerEnv) : HandlerResponse × List HandlerEffect :=
  match env.cognitoUserId with
  | .error e => (.badRequest e, [])
  | .ok userId =>
    let check := checkQuotaBeforeQuery env.quota env.usage env.currentMonth
    if check.1 = false then
      (.quotaExceeded ("Query limit exceeded: " ++ check.2)
        (getQuotaStatusEntries env.quota env.usage) none none, [])
    else
      match env.body with
      | .error e => (.badRequest e, [])
      | .ok req =>
        if pyStrip req.question == "" then
          (.badRequest "Question cannot be empty", [])
        else
          match getUserIndexName userId with
          | .error e => (.badRequest e, [])
          | .ok _indexName =>
            let vectors := filterOwnedResults env.storeResults userId
            let confidence : ℚ :=
              if req.maxResults > 0 then
                min 1 ((vectors.length : ℚ) / (req.maxResults : ℚ))
              else 0
            (.okQuery env.llmAnswer vectors confidence,
              [.vectorQuery, .bedrockInvoke, .usageRecordQuery])

/-- Environment of one user_add_document_handler invocation. -/
structure UploadHandlerEnv where
  cognitoUserId : Except String String
  quota : UserQuota
  usage : QuotaUsage
  today : String
  nowIso : String
  body : Except String UploadRequest
  actualVectorCount : Nat

/-- user_add_document_handler (multi_tenant_handlers.py lines 223-284):
extract the user id, parse and validate the body, estimate the vector
count, run check_quota_before_upload, short-circuit with 429 carrying the
status snapshot and the estimate on failure, otherwise add the document
and record the actual vector count. -/
def userAddDocumentHandler (env : UploadHandlerEnv) :
    HandlerResponse × List HandlerEffect :=
  match env.cognitoUserId with
  | .error e => (.badRequest e, [])
  | .ok userId =>
    match env.body with
    | .error e => (.badRequest e, [])
    | .ok req =>
      let text := pyStrip req.text
      let title := pyStrip req.title
      if text == "" then
        (.badRequest "Document text cannot be empty", [])
      else if title == "" then
        (.badRequest "Document title cannot be empty", [])
      else
        let estimatedVectors := estimateVectorCount text.length 1000
        let check := checkQuotaBeforeUpload env.quota env.usage text.utf8ByteSize
          (estimatedVectors : Int) env.today
        if check.1 = false then
          (.quotaExceeded ("Upload limit exceeded: " ++ check.2)
            (getQuotaStatusEntries env.quota env.usage)
            (some estimatedVectors)
            (some ((text.utf8ByteSize : ℚ) / (1024 * 1024))), [])
        else
          match getUserIndexName userId with
          | .error e => (.badRequest e, [])
          | .ok _indexName =>
            let newUsage := updateUsageAfterUpload env.usage (env.actualVectorCount : Int)
              ((text.utf8ByteSize : ℚ) / (1024 * 1024)) env.today env.nowIso
            (.okUpload env.actualVectorCount title
              (getQuotaStatusEntries env.quota newUsage),
              [.vectorPut, .usageRecordUpload])

/-- Claim C6: whenever a quota check rejects, each handler returns the
quota-exceeded response carrying the pre-state status snapshot, with an
empty effect trace: no store query, no LLM call, no vector put, and no
usage Record, so the stored counters are unchanged by the rejected
request. -/
theorem quota_check_failure_short_circuits :
    (∀ (env : QueryHandlerEnv) (uid : String),
      env.cognitoUserId = .ok uid →
      (checkQuotaBeforeQuery env.quota env.usage env.currentMonth).1 = false →
      userQueryHandler env =
        (.quotaExceeded
          ("Query limit exceeded: "
            ++ (checkQuotaBeforeQuery env.quota env.usage env.currentMonth).2)
          (getQuotaStatusEntries env.quota env.usage) none none, [])) ∧
    (∀ (env : UploadHandlerEnv) (uid : String) (req : UploadRequest),
      env.cognitoUserId = .ok uid →
      env.body = .ok req →
      pyStrip req.text ≠ "" →
      pyStrip req.title ≠ "" →
      (checkQuotaBeforeUpload env.quota env.usage (pyStrip req.text).utf8ByteSize
        ((estimateVectorCount (pyStrip req.text).length 1000 : Nat) : Int) env.today).1
        = false →
      userAddDocumentHandler env =
        (.quotaExceeded
          ("Upload limit exceeded: "
            ++ (checkQuotaBeforeUpload env.quota env.usage (pyStrip req.text).utf8ByteSize
              ((estimateVectorCount (pyStrip req.text).length 1000 : Nat) : Int) env.today).2)
          (getQuotaStatusEntries env.quota env.usage)
          (some (estimateVectorCount (pyStrip req.text).length 1000))
          (some (((pyStrip req.text).utf8ByteSize : ℚ) / (1024 * 1024))), [])) := by
  constructor
  · intro env uid h1 h2
    unfold userQueryHandler
    rw [h1]
    dsimp only
    rw [if_pos h2]
  · intro env uid req h1 hb htext htitle hcheck
    unfold userAddDocumentHandler
    rw [h1]
    dsimp only
    rw [hb]
    dsimp only
    rw [if_neg (by simp only [beq_iff_eq]; exact htext),
      if_neg (by simp only [beq_iff_eq]; exact htitle),
      if_pos hcheck]

/-- A tenant sitting exactly at the free-plan monthly query ceiling in the
current month, and the corresponding query handler environment. -/
def wQueryUsage : QuotaUsage :=
  ⟨"alice", 3, 100, 5, 500, 1, "2024-01", "2024-01-15", none, none⟩

def wQueryEnv : QueryHandlerEnv :=
  ⟨.ok "alice", freeQuota, wQueryUsage, "2024-01", .ok ⟨"hello", 3⟩, [], "unused"⟩

/-- Upload handler environment whose tenant sits at the document ceiling. -/
def wUploadEnv : UploadHandlerEnv :=
  ⟨.ok "alice", freeQuota, fullDocsUsage, "2024-01-15", "2024-01-15T00:00:00",
    .ok ⟨"doc text", "doc title"⟩, 4⟩

/-- Witness for quota_check_failure_short_circuits at both concrete
environments. -/
theorem quota_check_failure_short_circuits_witness :
    userQueryHandler wQueryEnv =
      (.quotaExceeded
        ("Query limit exceeded: "
          ++ (checkQuotaBeforeQuery wQueryEnv.quota wQueryEnv.usage wQueryEnv.currentMonth).2)
        (getQuotaStatusEntries wQueryEnv.quota wQueryEnv.usage) none none, []) ∧
    userAddDocumentHandler wUploadEnv =
      (.quotaExceeded
        ("Upload limit exceeded: "
          ++ (checkQuotaBeforeUpload wUploadEnv.quota wUploadEnv.usage
            (pyStrip "doc text").utf8ByteSize
            ((estimateVectorCount (pyStrip "doc text").length 1000 : Nat) : Int)
            wUploadEnv.today).2)
        (getQuotaStatusEntries wUploadEnv.quota wUploadEnv.usage)
        (some (estimateVectorCount (pyStrip "doc text").length 1000))
        (some (((pyStrip "doc text").utf8ByteSize : ℚ) / (1024 * 1024))), []) :=
  ⟨quota_check_failure_short_circuits.1 wQueryEnv "alice" rfl (by decide),
   quota_check_failure_short_circuits.2 wUploadEnv "alice" ⟨"doc text", "doc title"⟩
     rfl rfl (by decide) (by decide) (by decide)⟩
